import Mathlib

/-!
Verification of the `treewalker` library (src/src/treewalker/__init__.py):
a shallow embedding of its data model (JSON-like values, the missing-value
marker, the walker cursor hierarchy and the structured error) together with
proofs about the typed-extraction, path-rendering, object-inspection and
defaulting operations.
-/

set_option autoImplicit false
set_option maxRecDepth 16384

namespace TreeWalker

/-- Model of a Python float value.  The library never computes with floats:
it only returns them unchanged or produces one by widening an `int`
(`float(self.obj)`), so a float is either the widening of an integer or some
other opaque float value. -/
inductive PyFloat where
  | ofInt (n : Int)
  | other (id : Nat)
  deriving DecidableEq

/-- A Python value as seen by the library: the JSON-like kinds (`None`,
`bool`, `int`, `float`, `str`, `list`, `dict` with insertion-ordered string
keys) plus the `MissingValue` marker manufactured for absent children. -/
inductive PyVal where
  | none_
  | bool_ (b : Bool)
  | int_ (n : Int)
  | float_ (f : PyFloat)
  | str_ (s : String)
  | list_ (xs : List PyVal)
  | dict_ (items : List (String × PyVal))
  | missing

/-- `isinstance(v, str)`. -/
def isInstStr : PyVal → Bool
  | .str_ _ => true
  | _ => false

/-- `isinstance(v, bool)`. -/
def isInstBool : PyVal → Bool
  | .bool_ _ => true
  | _ => false

/-- `isinstance(v, int)`.  In Python `bool` is a subclass of `int`, so this
is true for booleans as well. -/
def isInstInt : PyVal → Bool
  | .int_ _ => true
  | .bool_ _ => true
  | _ => false

/-- `isinstance(v, float)`.  True only for actual floats (not for ints or
bools). -/
def isInstFloat : PyVal → Bool
  | .float_ _ => true
  | _ => false

/-- `isinstance(v, MissingValue)`. -/
def isMissingVal : PyVal → Bool
  | .missing => true
  | _ => false

/-- `int(v)` restricted to the values on which the library applies
`float(...)`: the integer content of an int, and `True = 1`, `False = 0`
for bools. -/
def intVal : PyVal → Int
  | .int_ n => n
  | .bool_ b => if b then 1 else 0
  | _ => 0

/-- The cursor hierarchy.  Each constructor is one of the classes of the
library, with its fields: the held value `obj`, the `parent` back-reference
(absent only for the root), the mutable annotation `custom_context`
(initially `""`, here `cc`), and the variant-specific metadata (`index`,
`key`, `referenced_keys`). -/
inductive Walker where
  | root (obj : PyVal) (cc : String)
  | inArray (obj : PyVal) (parent : Walker) (index : Nat) (cc : String)
  | inObject (obj : PyVal) (parent : Walker) (key : String) (cc : String)
  | objectW (obj : PyVal) (parent : Walker) (referenced : List String) (cc : String)

/-- The `obj` attribute: the tree node held by the walker. -/
def wobj : Walker → PyVal
  | .root v _ => v
  | .inArray v _ _ _ => v
  | .inObject v _ _ _ => v
  | .objectW v _ _ _ => v

/-- The `parent` attribute (`None` for the root walker). -/
def wparent : Walker → Option Walker
  | .root _ _ => none
  | .inArray _ p _ _ => some p
  | .inObject _ p _ _ => some p
  | .objectW _ p _ _ => some p

/-- The `custom_context` attribute. -/
def wcc : Walker → String
  | .root _ c => c
  | .inArray _ _ _ c => c
  | .inObject _ _ _ c => c
  | .objectW _ _ _ c => c

/-- The `referenced_keys` set of an `ObjectWalker` (empty for the other
walker classes, which do not have this attribute). -/
def wrefs : Walker → List String
  | .objectW _ _ refs _ => refs
  | _ => []

/-- Replace the held value `self.obj` in place (used by `default_to`). -/
def setObj : Walker → PyVal → Walker
  | .root _ c, v => .root v c
  | .inArray _ p i c, v => .inArray v p i c
  | .inObject _ p k c, v => .inObject v p k c
  | .objectW _ p r c, v => .objectW v p r c

/-- `Walker.is_missing`. -/
def is_missing (w : Walker) : Bool := isMissingVal (wobj w)

/-- `Walker.is_int`: `isinstance(self.obj, int)`. -/
def is_int (w : Walker) : Bool := isInstInt (wobj w)

/-- `Walker.is_number`: `isinstance(self.obj, int) or isinstance(self.obj, float)`. -/
def is_number (w : Walker) : Bool := isInstInt (wobj w) || isInstFloat (wobj w)

/-- `Walker.is_bool`: `isinstance(self.obj, bool)`. -/
def is_bool (w : Walker) : Bool := isInstBool (wobj w)

/-- The code-point ranges (inclusive) of the characters matched by the
str-pattern regular-expression class `\w` of CPython's regular-expression
engine (Unicode database 14.0.0): the Unicode alphanumeric characters plus
the underscore, as used by `re.fullmatch` in `WalkerInObject.context`. -/
def wordCharRanges : List (Nat × Nat) :=
  [(48, 57), (65, 90), (95, 95), (97, 122), (170, 170), (178, 179), (181, 181), (185, 186),
   (188, 190), (192, 214), (216, 246), (248, 705), (710, 721), (736, 740), (748, 748), (750, 750),
   (880, 884), (886, 887), (890, 893), (895, 895), (902, 902), (904, 906), (908, 908), (910, 929),
   (931, 1013), (1015, 1153), (1162, 1327), (1329, 1366), (1369, 1369), (1376, 1416),
   (1488, 1514), (1519, 1522), (1568, 1610), (1632, 1641), (1646, 1647), (1649, 1747),
   (1749, 1749), (1765, 1766), (1774, 1788), (1791, 1791), (1808, 1808), (1810, 1839),
   (1869, 1957), (1969, 1969), (1984, 2026), (2036, 2037), (2042, 2042), (2048, 2069),
   (2074, 2074), (2084, 2084), (2088, 2088), (2112, 2136), (2144, 2154), (2160, 2183),
   (2185, 2190), (2208, 2249), (2308, 2361), (2365, 2365), (2384, 2384), (2392, 2401),
   (2406, 2415), (2417, 2432), (2437, 2444), (2447, 2448), (2451, 2472), (2474, 2480),
   (2482, 2482), (2486, 2489), (2493, 2493), (2510, 2510), (2524, 2525), (2527, 2529),
   (2534, 2545), (2548, 2553), (2556, 2556), (2565, 2570), (2575, 2576), (2579, 2600),
   (2602, 2608), (2610, 2611), (2613, 2614), (2616, 2617), (2649, 2652), (2654, 2654),
   (2662, 2671), (2674, 2676), (2693, 2701), (2703, 2705), (2707, 2728), (2730, 2736),
   (2738, 2739), (2741, 2745), (2749, 2749), (2768, 2768), (2784, 2785), (2790, 2799),
   (2809, 2809), (2821, 2828), (2831, 2832), (2835, 2856), (2858, 2864), (2866, 2867),
   (2869, 2873), (2877, 2877), (2908, 2909), (2911, 2913), (2918, 2927), (2929, 2935),
   (2947, 2947), (2949, 2954), (2958, 2960), (2962, 2965), (2969, 2970), (2972, 2972),
   (2974, 2975), (2979, 2980), (2984, 2986), (2990, 3001), (3024, 3024), (3046, 3058),
   (3077, 3084), (3086, 3088), (3090, 3112), (3114, 3129), (3133, 3133), (3160, 3162),
   (3165, 3165), (3168, 3169), (3174, 3183), (3192, 3198), (3200, 3200), (3205, 3212),
   (3214, 3216), (3218, 3240), (3242, 3251), (3253, 3257), (3261, 3261), (3293, 3294),
   (3296, 3297), (3302, 3311), (3313, 3314), (3332, 3340), (3342, 3344), (3346, 3386),
   (3389, 3389), (3406, 3406), (3412, 3414), (3416, 3425), (3430, 3448), (3450, 3455),
   (3461, 3478), (3482, 3505), (3507, 3515), (3517, 3517), (3520, 3526), (3558, 3567),
   (3585, 3632), (3634, 3635), (3648, 3654), (3664, 3673), (3713, 3714), (3716, 3716),
   (3718, 3722), (3724, 3747), (3749, 3749), (3751, 3760), (3762, 3763), (3773, 3773),
   (3776, 3780), (3782, 3782), (3792, 3801), (3804, 3807), (3840, 3840), (3872, 3891),
   (3904, 3911), (3913, 3948), (3976, 3980), (4096, 4138), (4159, 4169), (4176, 4181),
   (4186, 4189), (4193, 4193), (4197, 4198), (4206, 4208), (4213, 4225), (4238, 4238),
   (4240, 4249), (4256, 4293), (4295, 4295), (4301, 4301), (4304, 4346), (4348, 4680),
   (4682, 4685), (4688, 4694), (4696, 4696), (4698, 4701), (4704, 4744), (4746, 4749),
   (4752, 4784), (4786, 4789), (4792, 4798), (4800, 4800), (4802, 4805), (4808, 4822),
   (4824, 4880), (4882, 4885), (4888, 4954), (4969, 4988), (4992, 5007), (5024, 5109),
   (5112, 5117), (5121, 5740), (5743, 5759), (5761, 5786), (5792, 5866), (5870, 5880),
   (5888, 5905), (5919, 5937), (5952, 5969), (5984, 5996), (5998, 6000), (6016, 6067),
   (6103, 6103), (6108, 6108), (6112, 6121), (6128, 6137), (6160, 6169), (6176, 6264),
   (6272, 6276), (6279, 6312), (6314, 6314), (6320, 6389), (6400, 6430), (6470, 6509),
   (6512, 6516), (6528, 6571), (6576, 6601), (6608, 6618), (6656, 6678), (6688, 6740),
   (6784, 6793), (6800, 6809), (6823, 6823), (6917, 6963), (6981, 6988), (6992, 7001),
   (7043, 7072), (7086, 7141), (7168, 7203), (7232, 7241), (7245, 7293), (7296, 7304),
   (7312, 7354), (7357, 7359), (7401, 7404), (7406, 7411), (7413, 7414), (7418, 7418),
   (7424, 7615), (7680, 7957), (7960, 7965), (7968, 8005), (8008, 8013), (8016, 8023),
   (8025, 8025), (8027, 8027), (8029, 8029), (8031, 8061), (8064, 8116), (8118, 8124),
   (8126, 8126), (8130, 8132), (8134, 8140), (8144, 8147), (8150, 8155), (8160, 8172),
   (8178, 8180), (8182, 8188), (8304, 8305), (8308, 8313), (8319, 8329), (8336, 8348),
   (8450, 8450), (8455, 8455), (8458, 8467), (8469, 8469), (8473, 8477), (8484, 8484),
   (8486, 8486), (8488, 8488), (8490, 8493), (8495, 8505), (8508, 8511), (8517, 8521),
   (8526, 8526), (8528, 8585), (9312, 9371), (9450, 9471), (10102, 10131), (11264, 11492),
   (11499, 11502), (11506, 11507), (11517, 11517), (11520, 11557), (11559, 11559), (11565, 11565),
   (11568, 11623), (11631, 11631), (11648, 11670), (11680, 11686), (11688, 11694), (11696, 11702),
   (11704, 11710), (11712, 11718), (11720, 11726), (11728, 11734), (11736, 11742), (11823, 11823),
   (12293, 12295), (12321, 12329), (12337, 12341), (12344, 12348), (12353, 12438), (12445, 12447),
   (12449, 12538), (12540, 12543), (12549, 12591), (12593, 12686), (12690, 12693), (12704, 12735),
   (12784, 12799), (12832, 12841), (12872, 12879), (12881, 12895), (12928, 12937), (12977, 12991),
   (13312, 19903), (19968, 42124), (42192, 42237), (42240, 42508), (42512, 42539), (42560, 42606),
   (42623, 42653), (42656, 42735), (42775, 42783), (42786, 42888), (42891, 42954), (42960, 42961),
   (42963, 42963), (42965, 42969), (42994, 43009), (43011, 43013), (43015, 43018), (43020, 43042),
   (43056, 43061), (43072, 43123), (43138, 43187), (43216, 43225), (43250, 43255), (43259, 43259),
   (43261, 43262), (43264, 43301), (43312, 43334), (43360, 43388), (43396, 43442), (43471, 43481),
   (43488, 43492), (43494, 43518), (43520, 43560), (43584, 43586), (43588, 43595), (43600, 43609),
   (43616, 43638), (43642, 43642), (43646, 43695), (43697, 43697), (43701, 43702), (43705, 43709),
   (43712, 43712), (43714, 43714), (43739, 43741), (43744, 43754), (43762, 43764), (43777, 43782),
   (43785, 43790), (43793, 43798), (43808, 43814), (43816, 43822), (43824, 43866), (43868, 43881),
   (43888, 44002), (44016, 44025), (44032, 55203), (55216, 55238), (55243, 55291), (63744, 64109),
   (64112, 64217), (64256, 64262), (64275, 64279), (64285, 64285), (64287, 64296), (64298, 64310),
   (64312, 64316), (64318, 64318), (64320, 64321), (64323, 64324), (64326, 64433), (64467, 64829),
   (64848, 64911), (64914, 64967), (65008, 65019), (65136, 65140), (65142, 65276), (65296, 65305),
   (65313, 65338), (65345, 65370), (65382, 65470), (65474, 65479), (65482, 65487), (65490, 65495),
   (65498, 65500), (65536, 65547), (65549, 65574), (65576, 65594), (65596, 65597), (65599, 65613),
   (65616, 65629), (65664, 65786), (65799, 65843), (65856, 65912), (65930, 65931), (66176, 66204),
   (66208, 66256), (66273, 66299), (66304, 66339), (66349, 66378), (66384, 66421), (66432, 66461),
   (66464, 66499), (66504, 66511), (66513, 66517), (66560, 66717), (66720, 66729), (66736, 66771),
   (66776, 66811), (66816, 66855), (66864, 66915), (66928, 66938), (66940, 66954), (66956, 66962),
   (66964, 66965), (66967, 66977), (66979, 66993), (66995, 67001), (67003, 67004), (67072, 67382),
   (67392, 67413), (67424, 67431), (67456, 67461), (67463, 67504), (67506, 67514), (67584, 67589),
   (67592, 67592), (67594, 67637), (67639, 67640), (67644, 67644), (67647, 67669), (67672, 67702),
   (67705, 67742), (67751, 67759), (67808, 67826), (67828, 67829), (67835, 67867), (67872, 67897),
   (67968, 68023), (68028, 68047), (68050, 68096), (68112, 68115), (68117, 68119), (68121, 68149),
   (68160, 68168), (68192, 68222), (68224, 68255), (68288, 68295), (68297, 68324), (68331, 68335),
   (68352, 68405), (68416, 68437), (68440, 68466), (68472, 68497), (68521, 68527), (68608, 68680),
   (68736, 68786), (68800, 68850), (68858, 68899), (68912, 68921), (69216, 69246), (69248, 69289),
   (69296, 69297), (69376, 69415), (69424, 69445), (69457, 69460), (69488, 69505), (69552, 69579),
   (69600, 69622), (69635, 69687), (69714, 69743), (69745, 69746), (69749, 69749), (69763, 69807),
   (69840, 69864), (69872, 69881), (69891, 69926), (69942, 69951), (69956, 69956), (69959, 69959),
   (69968, 70002), (70006, 70006), (70019, 70066), (70081, 70084), (70096, 70106), (70108, 70108),
   (70113, 70132), (70144, 70161), (70163, 70187), (70272, 70278), (70280, 70280), (70282, 70285),
   (70287, 70301), (70303, 70312), (70320, 70366), (70384, 70393), (70405, 70412), (70415, 70416),
   (70419, 70440), (70442, 70448), (70450, 70451), (70453, 70457), (70461, 70461), (70480, 70480),
   (70493, 70497), (70656, 70708), (70727, 70730), (70736, 70745), (70751, 70753), (70784, 70831),
   (70852, 70853), (70855, 70855), (70864, 70873), (71040, 71086), (71128, 71131), (71168, 71215),
   (71236, 71236), (71248, 71257), (71296, 71338), (71352, 71352), (71360, 71369), (71424, 71450),
   (71472, 71483), (71488, 71494), (71680, 71723), (71840, 71922), (71935, 71942), (71945, 71945),
   (71948, 71955), (71957, 71958), (71960, 71983), (71999, 71999), (72001, 72001), (72016, 72025),
   (72096, 72103), (72106, 72144), (72161, 72161), (72163, 72163), (72192, 72192), (72203, 72242),
   (72250, 72250), (72272, 72272), (72284, 72329), (72349, 72349), (72368, 72440), (72704, 72712),
   (72714, 72750), (72768, 72768), (72784, 72812), (72818, 72847), (72960, 72966), (72968, 72969),
   (72971, 73008), (73030, 73030), (73040, 73049), (73056, 73061), (73063, 73064), (73066, 73097),
   (73112, 73112), (73120, 73129), (73440, 73458), (73648, 73648), (73664, 73684), (73728, 74649),
   (74752, 74862), (74880, 75075), (77712, 77808), (77824, 78894), (82944, 83526), (92160, 92728),
   (92736, 92766), (92768, 92777), (92784, 92862), (92864, 92873), (92880, 92909), (92928, 92975),
   (92992, 92995), (93008, 93017), (93019, 93025), (93027, 93047), (93053, 93071), (93760, 93846),
   (93952, 94026), (94032, 94032), (94099, 94111), (94176, 94177), (94179, 94179),
   (94208, 100343), (100352, 101589), (101632, 101640), (110576, 110579), (110581, 110587),
   (110589, 110590), (110592, 110882), (110928, 110930), (110948, 110951), (110960, 111355),
   (113664, 113770), (113776, 113788), (113792, 113800), (113808, 113817), (119520, 119539),
   (119648, 119672), (119808, 119892), (119894, 119964), (119966, 119967), (119970, 119970),
   (119973, 119974), (119977, 119980), (119982, 119993), (119995, 119995), (119997, 120003),
   (120005, 120069), (120071, 120074), (120077, 120084), (120086, 120092), (120094, 120121),
   (120123, 120126), (120128, 120132), (120134, 120134), (120138, 120144), (120146, 120485),
   (120488, 120512), (120514, 120538), (120540, 120570), (120572, 120596), (120598, 120628),
   (120630, 120654), (120656, 120686), (120688, 120712), (120714, 120744), (120746, 120770),
   (120772, 120779), (120782, 120831), (122624, 122654), (123136, 123180), (123191, 123197),
   (123200, 123209), (123214, 123214), (123536, 123565), (123584, 123627), (123632, 123641),
   (124896, 124902), (124904, 124907), (124909, 124910), (124912, 124926), (124928, 125124),
   (125127, 125135), (125184, 125251), (125259, 125259), (125264, 125273), (126065, 126123),
   (126125, 126127), (126129, 126132), (126209, 126253), (126255, 126269), (126464, 126467),
   (126469, 126495), (126497, 126498), (126500, 126500), (126503, 126503), (126505, 126514),
   (126516, 126519), (126521, 126521), (126523, 126523), (126530, 126530), (126535, 126535),
   (126537, 126537), (126539, 126539), (126541, 126543), (126545, 126546), (126548, 126548),
   (126551, 126551), (126553, 126553), (126555, 126555), (126557, 126557), (126559, 126559),
   (126561, 126562), (126564, 126564), (126567, 126570), (126572, 126578), (126580, 126583),
   (126585, 126588), (126590, 126590), (126592, 126601), (126603, 126619), (126625, 126627),
   (126629, 126633), (126635, 126651), (127232, 127244), (130032, 130041), (131072, 173791),
   (173824, 177976), (177984, 178205), (178208, 183969), (183984, 191456), (194560, 195101),
   (196608, 201546)]

/-- A word character in the sense of the str-pattern regular-expression
class `\w`, which in Python 3 is Unicode-aware: any character whose code
point lies in one of the `\w` ranges of the regex engine (the Unicode
letters, digits and numeric characters, plus the underscore). -/
def isWordChar (c : Char) : Bool :=
  wordCharRanges.any (fun r => decide (r.1 ≤ c.toNat) && decide (c.toNat ≤ r.2))

/-- `re.fullmatch(r'\w+', key)` succeeds: the key is non-empty and consists
only of word characters. -/
def isWordKey (s : String) : Bool := !s.isEmpty && s.data.all isWordChar

/-- `re.sub(r'(\\|")', r'\\\1', key)`: every backslash and double-quote
character gets a backslash prepended. -/
def escapeKey (s : String) : String :=
  ⟨s.data.foldr (fun c acc => if c = '\\' || c = '"' then '\\' :: c :: acc else c :: acc) []⟩

/-- The `context()` method of each walker class: the structural path
fragment the cursor contributes. -/
def context : Walker → String
  | .root _ _ => "root"
  | .inArray _ _ i _ => "[" ++ toString i ++ "]"
  | .inObject _ _ k _ =>
      if isWordKey k then "." ++ k
      else "." ++ "\"" ++ escapeKey k ++ "\""
  | .objectW _ _ _ _ => ""

/-- `WalkerError`: the structured error, carrying the triggering walker and
the message. -/
structure WalkerError where
  walker : Walker
  msg : String

/-- The context-collection loop of `WalkerError.__str__`: starting from the
triggering walker, append `w.context()` then `w.custom_context` and move to
the parent, until past the root. -/
def collectContexts : Walker → List String
  | .root v c => [context (.root v c), c]
  | .inArray v p i c => [context (.inArray v p i c), c] ++ collectContexts p
  | .inObject v p k c => [context (.inObject v p k c), c] ++ collectContexts p
  | .objectW v p r c => [context (.objectW v p r c), c] ++ collectContexts p

/-- `WalkerError.__str__`: `"".join(reversed(contexts)) + ": " + self.msg`. -/
def strError (e : WalkerError) : String :=
  String.join (collectContexts e.walker).reverse ++ ": " ++ e.msg

/-- `Walker.as_type(typ, msg, default=None)`.  `typ` is modelled by its
`isinstance` test; the Python parameter `default: Optional[T] = None` is an
`Option`, with `none` standing for the `None` sentinel (whether omitted or
passed explicitly — the code tests `default is None`). -/
def as_type (w : Walker) (typ : PyVal → Bool) (msg : String)
    (dflt : Option PyVal) : Except WalkerError PyVal :=
  if typ (wobj w) then .ok (wobj w)
  else if is_missing w then
    match dflt with
    | none => .error ⟨w, "Mandatory key is missing"⟩
    | some d => .ok d
  else .error ⟨w, msg⟩

/-- `Walker.as_optional_type(typ, msg)`. -/
def as_optional_type (w : Walker) (typ : PyVal → Bool) (msg : String) :
    Except WalkerError (Option PyVal) :=
  if typ (wobj w) then .ok (some (wobj w))
  else if is_missing w then .ok none
  else .error ⟨w, msg⟩

/-- `Walker.as_str(default=None)`. -/
def as_str (w : Walker) (dflt : Option PyVal) : Except WalkerError PyVal :=
  as_type w isInstStr "Expected a string" dflt

/-- `Walker.as_int(default=None)`. -/
def as_int (w : Walker) (dflt : Option PyVal) : Except WalkerError PyVal :=
  as_type w isInstInt "Expected an integer" dflt

/-- `Walker.as_float(default=None)`: an `int` (including a `bool`) is first
widened with `float(self.obj)`; everything else goes through `as_type` with
message "Expected a number". -/
def as_float (w : Walker) (dflt : Option PyVal) : Except WalkerError PyVal :=
  if isInstInt (wobj w) then .ok (.float_ (.ofInt (intVal (wobj w))))
  else as_type w isInstFloat "Expected a number" dflt

/-- `Walker.as_bool(default=None)`. -/
def as_bool (w : Walker) (dflt : Option PyVal) : Except WalkerError PyVal :=
  as_type w isInstBool "Expected a Boolean value" dflt

/-- `Walker.as_optional_float()`: the same integer-widening rule as
`as_float`, otherwise `as_optional_type` with "Expected a number". -/
def as_optional_float (w : Walker) : Except WalkerError (Option PyVal) :=
  if isInstInt (wobj w) then .ok (some (.float_ (.ofInt (intVal (wobj w)))))
  else as_optional_type w isInstFloat "Expected a number"

/-- Lexicographic code-point comparison of character lists: the order in
which Python compares `str` values. -/
def strLeChars : List Char → List Char → Bool
  | [], _ => true
  | _ :: _, [] => false
  | a :: as, b :: bs => if a = b then strLeChars as bs else decide (a.toNat < b.toNat)

/-- `a <= b` on Python strings (lexicographic by code point). -/
def strLeB (a b : String) : Bool := strLeChars a.data b.data

/-- Insertion of a string into an already sorted list, keeping it sorted. -/
def insertSorted (s : String) : List String → List String
  | [] => [s]
  | t :: ts => if strLeB s t then s :: t :: ts else t :: insertSorted s ts

/-- `sorted(...)` on strings: a stable ascending sort by the lexicographic
code-point order in which Python compares `str` values. -/
def sortStrings : List String → List String
  | [] => []
  | s :: ss => insertSorted s (sortStrings ss)

/-- `enum(x)` for a string-valued enumeration, modelled as the list of the
variants' string values in declaration order: looks the value up by string,
`none` standing for the `ValueError` of an unmatched value. -/
def enumLookup (values : List String) (x : PyVal) : Option String :=
  match x with
  | .str_ s => if values.contains s then some s else none
  | _ => none

/-- `Walker.as_enum(enum, default=None)` for an enumeration whose members
are `str`-valued (the only kind the code supports: it sorts and joins the
member objects, which for a `str`-mixin enumeration compare and join as
their underlying value strings). -/
def as_enum (w : Walker) (values : List String) (dflt : Option String) :
    Except WalkerError String :=
  match is_missing w, dflt with
  | true, some d => .ok d
  | _, _ =>
    match as_str w none with
    | .error e => .error e
    | .ok v =>
      match enumLookup values v with
      | some m => .ok m
      | none =>
        .error ⟨w, "Must be one of " ++ String.intercalate "/" (sortStrings values)⟩

/-- `Walker.default_to(default)`: if the node is missing, replace the held
value with `default`; return the (same) walker either way. -/
def default_to (w : Walker) (d : PyVal) : Walker :=
  if is_missing w then setObj w d else w

/-- `key in dict` / `self.obj[key]` on the insertion-ordered dictionary. -/
def dictLookup : PyVal → String → Option PyVal
  | .dict_ items, k => items.lookup k
  | _, _ => none

/-- `self.referenced_keys.add(key)` on an `ObjectWalker` (identity on the
other classes, which have no such attribute). -/
def addRef : Walker → String → Walker
  | .objectW v p refs c, k =>
      .objectW v p (if refs.contains k then refs else k :: refs) c
  | w, _ => w

/-- `ObjectWalker.__getitem__`: on a present key, record it as referenced
and wrap the attribute's value; on an absent key, wrap a fresh
`MissingValue`.  Returns the updated inspection walker (the Python method
mutates `referenced_keys` in place) together with the child cursor, whose
parent is that same inspection walker. -/
def getitem (self : Walker) (key : String) : Walker × Walker :=
  match dictLookup (wobj self) key with
  | some v =>
      let s := addRef self key
      (s, .inObject v s key "")
  | none => (self, .inObject .missing self key "")

/-- The loop of `ObjectWalker.assert_no_other_keys`: walk the attributes in
the object's iteration order and raise `Unexpected key` (via
`WalkerInObject(val, self, key).unexpected()`) at the first key that is not
in `referenced_keys`. -/
def anokLoop (self : Walker) (refs : List String) :
    List (String × PyVal) → Except WalkerError Unit
  | [] => .ok ()
  | (k, v) :: rest =>
      if refs.contains k then anokLoop self refs rest
      else .error ⟨.inObject v self k "", "Unexpected key"⟩

/-- `ObjectWalker.assert_no_other_keys`. -/
def assert_no_other_keys (self : Walker) : Except WalkerError Unit :=
  match wobj self with
  | .dict_ items => anokLoop self (wrefs self) items
  | _ => .ok ()

/-- `ObjectWalker.__exit__`: run `assert_no_other_keys` only when no error
is already propagating (`exc_type is None`). -/
def exitScope (self : Walker) (errPropagating : Bool) : Except WalkerError Unit :=
  if errPropagating then .ok () else assert_no_other_keys self

theorem isMissingVal_iff (v : PyVal) : isMissingVal v = true ↔ v = .missing := by
  cases v <;> simp [isMissingVal]

theorem wobj_setObj (w : Walker) (v : PyVal) : wobj (setObj w v) = v := by
  cases w <;> rfl

theorem setObj_setObj (w : Walker) (v v' : PyVal) :
    setObj (setObj w v) v' = setObj w v' := by
  cases w <;> rfl

theorem as_type_of_match (w : Walker) (typ : PyVal → Bool) (msg : String)
    (dflt : Option PyVal) (h : typ (wobj w) = true) :
    as_type w typ msg dflt = .ok (wobj w) := by
  simp [as_type, h]

theorem as_type_of_missing (w : Walker) (typ : PyVal → Bool) (msg : String)
    (h : typ (wobj w) = false) (hm : is_missing w = true) :
    (∀ d, as_type w typ msg (some d) = .ok d) ∧
    as_type w typ msg none = .error ⟨w, "Mandatory key is missing"⟩ := by
  constructor <;> simp [as_type, h, hm]

theorem as_type_of_mismatch (w : Walker) (typ : PyVal → Bool) (msg : String)
    (dflt : Option PyVal) (h : typ (wobj w) = false) (hm : is_missing w = false) :
    as_type w typ msg dflt = .error ⟨w, msg⟩ := by
  simp [as_type, h, hm]

theorem isInst_of_missing (w : Walker) (hm : is_missing w = true) :
    isInstStr (wobj w) = false ∧ isInstInt (wobj w) = false ∧
    isInstBool (wobj w) = false ∧ isInstFloat (wobj w) = false := by
  have hv : wobj w = .missing := (isMissingVal_iff _).mp hm
  simp [hv, isInstStr, isInstInt, isInstBool, isInstFloat]

/-- Claim C1: the shared typed-extraction operation `as_type`, as used by
`as_str`, `as_int`, `as_bool` and the non-integer branch of `as_float`,
returns the held value unchanged when it matches the target type; on a
missing cursor it returns the supplied default if one was supplied and
otherwise raises the structured error with message "Mandatory key is
missing"; and on a present value of the wrong type it raises the structured
error with the operation's mismatch message ("Expected a string" /
"Expected an integer" / "Expected a Boolean value" / "Expected a number"). -/
theorem claim_c1 (w : Walker) (d : PyVal) :
    (isInstStr (wobj w) = true → ∀ dflt, as_str w dflt = .ok (wobj w)) ∧
    (isInstInt (wobj w) = true → ∀ dflt, as_int w dflt = .ok (wobj w)) ∧
    (isInstBool (wobj w) = true → ∀ dflt, as_bool w dflt = .ok (wobj w)) ∧
    (isInstFloat (wobj w) = true → ∀ dflt, as_float w dflt = .ok (wobj w)) ∧
    (is_missing w = true →
      (as_str w (some d) = .ok d ∧ as_int w (some d) = .ok d ∧
       as_bool w (some d) = .ok d ∧ as_float w (some d) = .ok d) ∧
      (as_str w none = .error ⟨w, "Mandatory key is missing"⟩ ∧
       as_int w none = .error ⟨w, "Mandatory key is missing"⟩ ∧
       as_bool w none = .error ⟨w, "Mandatory key is missing"⟩ ∧
       as_float w none = .error ⟨w, "Mandatory key is missing"⟩)) ∧
    (is_missing w = false →
      (isInstStr (wobj w) = false →
        ∀ dflt, as_str w dflt = .error ⟨w, "Expected a string"⟩) ∧
      (isInstInt (wobj w) = false →
        ∀ dflt, as_int w dflt = .error ⟨w, "Expected an integer"⟩) ∧
      (isInstBool (wobj w) = false →
        ∀ dflt, as_bool w dflt = .error ⟨w, "Expected a Boolean value"⟩) ∧
      (isInstInt (wobj w) = false → isInstFloat (wobj w) = false →
        ∀ dflt, as_float w dflt = .error ⟨w, "Expected a number"⟩)) := by
  refine ⟨?_, ?_, ?_, ?_, ?_, ?_⟩
  · intro h dflt
    exact as_type_of_match w isInstStr _ dflt h
  · intro h dflt
    exact as_type_of_match w isInstInt _ dflt h
  · intro h dflt
    exact as_type_of_match w isInstBool _ dflt h
  · intro h dflt
    have hint : isInstInt (wobj w) = false := by
      have hv : ∃ f, wobj w = .float_ f := by
        cases hw : wobj w <;> simp_all [isInstFloat]
      obtain ⟨f, hf⟩ := hv
      simp [hf, isInstInt]
    simp only [as_float, hint, Bool.false_eq_true, if_false]
    exact as_type_of_match w isInstFloat _ dflt h
  · intro hm
    obtain ⟨h1, h2, h3, h4⟩ := isInst_of_missing w hm
    refine ⟨⟨?_, ?_, ?_, ?_⟩, ?_, ?_, ?_, ?_⟩
    · exact (as_type_of_missing w isInstStr _ h1 hm).1 d
    · exact (as_type_of_missing w isInstInt _ h2 hm).1 d
    · exact (as_type_of_missing w isInstBool _ h3 hm).1 d
    · simp only [as_float, h2, Bool.false_eq_true, if_false]
      exact (as_type_of_missing w isInstFloat _ h4 hm).1 d
    · exact (as_type_of_missing w isInstStr _ h1 hm).2
    · exact (as_type_of_missing w isInstInt _ h2 hm).2
    · exact (as_type_of_missing w isInstBool _ h3 hm).2
    · simp only [as_float, h2, Bool.false_eq_true, if_false]
      exact (as_type_of_missing w isInstFloat _ h4 hm).2
  · intro hm
    refine ⟨?_, ?_, ?_, ?_⟩
    · intro h dflt
      exact as_type_of_mismatch w isInstStr _ dflt h hm
    · intro h dflt
      exact as_type_of_mismatch w isInstInt _ dflt h hm
    · intro h dflt
      exact as_type_of_mismatch w isInstBool _ dflt h hm
    · intro hi hf dflt
      simp only [as_float, hi, Bool.false_eq_true, if_false]
      exact as_type_of_mismatch w isInstFloat _ dflt hf hm

/-- Witness for C1 at concrete inputs: a matching string is returned as-is,
a missing node with an explicit default yields the default, a missing node
without a default and a mistyped node raise the respective messages. -/
theorem claim_c1_witness :
    as_str (Walker.root (.str_ "x") "") none = .ok (.str_ "x") ∧
    as_int (Walker.root .missing "") (some (.int_ 7)) = .ok (.int_ 7) ∧
    as_int (Walker.root .missing "") none =
      .error ⟨Walker.root .missing "", "Mandatory key is missing"⟩ ∧
    as_bool (Walker.root (.int_ 3) "") none =
      .error ⟨Walker.root (.int_ 3) "", "Expected a Boolean value"⟩ := by
  refine ⟨?_, ?_, ?_, ?_⟩
  · exact (claim_c1 (Walker.root (.str_ "x") "") (.int_ 0)).1 rfl none
  · exact (((claim_c1 (Walker.root .missing "") (.int_ 7)).2.2.2.2.1 rfl).1).2.1
  · exact (((claim_c1 (Walker.root .missing "") (.int_ 7)).2.2.2.2.1 rfl).2).2.1
  · exact (((claim_c1 (Walker.root (.int_ 3) "") (.int_ 0)).2.2.2.2.2 rfl).2.2.1) rfl none

/-- Claim C8: on an integer value, `as_float` and `as_optional_float`
return the numeric widening of the value to floating-point without raising,
regardless of any default; on any non-integer value they are exactly the
generic (respectively optional) extraction contract with mismatch message
"Expected a number". -/
theorem claim_c8 (w : Walker) (dflt : Option PyVal) :
    (isInstInt (wobj w) = true →
      as_float w dflt = .ok (.float_ (.ofInt (intVal (wobj w)))) ∧
      as_optional_float w = .ok (some (.float_ (.ofInt (intVal (wobj w)))))) ∧
    (isInstInt (wobj w) = false →
      as_float w dflt = as_type w isInstFloat "Expected a number" dflt ∧
      as_optional_float w = as_optional_type w isInstFloat "Expected a number") := by
  constructor
  · intro h
    constructor <;> simp [as_float, as_optional_float, h]
  · intro h
    constructor <;> simp [as_float, as_optional_float, h]

/-- Witness for C8: the integer 3 is widened by both operations, and on a
string both operations coincide with the generic contracts. -/
theorem claim_c8_witness :
    as_float (Walker.root (.int_ 3) "") none = .ok (.float_ (.ofInt 3)) ∧
    as_optional_float (Walker.root (.int_ 3) "") = .ok (some (.float_ (.ofInt 3))) ∧
    as_float (Walker.root (.str_ "a") "") none =
      as_type (Walker.root (.str_ "a") "") isInstFloat "Expected a number" none := by
  refine ⟨?_, ?_, ?_⟩
  · exact ((claim_c8 (Walker.root (.int_ 3) "") none).1 rfl).1
  · exact ((claim_c8 (Walker.root (.int_ 3) "") none).1 rfl).2
  · exact ((claim_c8 (Walker.root (.str_ "a") "") none).2 rfl).1

/-- Claim C9: `default_to` is idempotent: on a non-missing cursor it leaves
the held value unchanged and returns the same cursor, and calling it twice
in succession leaves the cursor in the same state as calling it once. -/
theorem claim_c9 (w : Walker) (x : PyVal) :
    (is_missing w = false → default_to w x = w) ∧
    default_to (default_to w x) x = default_to w x := by
  constructor
  · intro h
    simp [default_to, h]
  · by_cases h : is_missing w = true
    · simp only [default_to, h, if_true]
      by_cases hx : is_missing (setObj w x) = true
      · simp [hx, setObj_setObj]
      · simp [hx]
    · simp only [Bool.not_eq_true] at h
      simp [default_to, h]

/-- Witness for C9: on a present node `default_to` is the identity, and on
a missing node a second call changes nothing. -/
theorem claim_c9_witness :
    default_to (Walker.root (.int_ 1) "") (.str_ "a") = Walker.root (.int_ 1) "" ∧
    default_to (default_to (Walker.root .missing "") (.str_ "a")) (.str_ "a") =
      default_to (Walker.root .missing "") (.str_ "a") := by
  constructor
  · exact (claim_c9 (Walker.root (.int_ 1) "") (.str_ "a")).1 rfl
  · exact (claim_c9 (Walker.root .missing "") (.str_ "a")).2

/-- Claim C10: a boolean value is treated as an integer by the
integer-flavoured operations: `is_int` and `is_number` are true, `as_int`
returns the boolean itself, and `as_float` returns its numeric widening
(1.0 or 0.0) instead of raising "Expected a number". -/
theorem claim_c10 (w : Walker) (b : Bool) (h : wobj w = .bool_ b) :
    is_int w = true ∧ is_number w = true ∧
    as_int w none = .ok (.bool_ b) ∧
    as_float w none = .ok (.float_ (.ofInt (if b then 1 else 0))) := by
  refine ⟨?_, ?_, ?_, ?_⟩
  · simp [is_int, h, isInstInt]
  · simp [is_number, h, isInstInt]
  · have := as_type_of_match w isInstInt "Expected an integer" none (by simp [h, isInstInt])
    simpa [as_int, h] using this
  · simp [as_float, h, isInstInt, intVal]

/-- Witness for C10 at the boolean `True`. -/
theorem claim_c10_witness :
    is_int (Walker.root (.bool_ true) "") = true ∧
    as_int (Walker.root (.bool_ true) "") none = .ok (.bool_ true) ∧
    as_float (Walker.root (.bool_ true) "") none = .ok (.float_ (.ofInt 1)) := by
  have h := claim_c10 (Walker.root (.bool_ true) "") true rfl
  exact ⟨h.1, h.2.2.1, h.2.2.2⟩

/-- Claim C7: the per-kind path fragments: `"root"` for the root cursor,
`"[" + index + "]"` for an array-element cursor, `"." + key` for an
object-attribute cursor with a pure word-character key and otherwise `"."`
followed by the double-quoted key with every backslash and double-quote
backslash-escaped, and the empty string for an object-inspection cursor;
the final conjunct characterises the escaping character by character. -/
theorem claim_c7 (v : PyVal) (p : Walker) (i : Nat) (k : String)
    (refs : List String) (c : String) :
    context (.root v c) = "root" ∧
    context (.inArray v p i c) = "[" ++ toString i ++ "]" ∧
    (isWordKey k = true → context (.inObject v p k c) = "." ++ k) ∧
    (isWordKey k = false →
      context (.inObject v p k c) = "." ++ "\"" ++ escapeKey k ++ "\"") ∧
    context (.objectW v p refs c) = "" ∧
    escapeKey ⟨[]⟩ = ⟨[]⟩ ∧
    (∀ (ch : Char) (s : List Char),
      (escapeKey ⟨ch :: s⟩).data =
        (if ch = '\\' || ch = '"' then ['\\', ch] else [ch]) ++ (escapeKey ⟨s⟩).data) := by
  refine ⟨rfl, rfl, ?_, ?_, rfl, rfl, ?_⟩
  · intro h
    simp [context, h]
  · intro h
    simp [context, h]
  · intro ch s
    by_cases h1 : ch = '\\'
    · simp [escapeKey, h1]
    · by_cases h2 : ch = '"'
      · simp [escapeKey, h1, h2]
      · simp [escapeKey, h1, h2]

/-- Witness for C7: an ASCII word key and a Unicode word key render bare,
a key with a space renders double-quoted, and a key containing a quote gets
it escaped. -/
theorem claim_c7_witness :
    context (Walker.inObject .none_ (.root .none_ "") "abc" "") = ".abc" ∧
    context (Walker.inObject .none_ (.root .none_ "") "caf\xe9" "") = ".caf\xe9" ∧
    context (Walker.inObject .none_ (.root .none_ "") "odd key" "") = ".\"odd key\"" ∧
    context (Walker.inObject .none_ (.root .none_ "") "a\"b" "") = ".\"a\\\"b\"" := by
  refine ⟨?_, ?_, ?_, ?_⟩
  · exact (claim_c7 .none_ (.root .none_ "") 0 "abc" [] "").2.2.1 (by decide)
  · exact (claim_c7 .none_ (.root .none_ "") 0 "caf\xe9" [] "").2.2.1 (by decide)
  · have h := (claim_c7 .none_ (.root .none_ "") 0 "odd key" [] "").2.2.2.1 (by decide)
    simpa using h
  · have h := (claim_c7 .none_ (.root .none_ "") 0 "a\"b" [] "").2.2.2.1 (by decide)
    simpa using h

theorem char_eq_of_toNat_eq {a b : Char} (h : a.toNat = b.toNat) : a = b := by
  apply Char.ext
  exact UInt32.ext h

theorem strLeChars_total : ∀ x y, strLeChars x y = true ∨ strLeChars y x = true
  | [], _ => Or.inl rfl
  | _ :: _, [] => Or.inr rfl
  | a :: as, b :: bs => by
    by_cases h : a = b
    · subst h
      rcases strLeChars_total as bs with h' | h'
      · left
        simpa [strLeChars] using h'
      · right
        simpa [strLeChars] using h'
    · have hne : a.toNat ≠ b.toNat := fun hn => h (char_eq_of_toNat_eq hn)
      rcases Nat.lt_or_ge a.toNat b.toNat with hlt | hge
      · left
        simp [strLeChars, h, hlt]
      · have hbn : b.toNat < a.toNat := lt_of_le_of_ne hge (Ne.symm hne)
        right
        simp [strLeChars, Ne.symm h, hbn]

theorem strLeChars_trans : ∀ x y z, strLeChars x y = true → strLeChars y z = true →
    strLeChars x z = true
  | [], _, _, _, _ => rfl
  | _ :: _, [], _, h1, _ => by simp [strLeChars] at h1
  | _ :: _, _ :: _, [], _, h2 => by simp [strLeChars] at h2
  | a :: as, b :: bs, c :: cs, h1, h2 => by
    by_cases hab : a = b <;> by_cases hbc : b = c
    · subst hab
      subst hbc
      simp only [strLeChars, if_pos rfl] at h1 h2 ⊢
      exact strLeChars_trans as bs cs h1 h2
    · subst hab
      simp only [strLeChars, if_pos rfl] at h1
      simpa only [strLeChars, if_neg hbc] using h2
    · subst hbc
      simp only [strLeChars, if_pos rfl] at h2
      simpa only [strLeChars, if_neg hab] using h1
    · simp only [strLeChars, if_neg hab, decide_eq_true_eq] at h1
      simp only [strLeChars, if_neg hbc, decide_eq_true_eq] at h2
      have hac : a.toNat < c.toNat := Nat.lt_trans h1 h2
      have hne : a ≠ c := by
        intro hEq
        subst hEq
        exact Nat.lt_irrefl _ (Nat.lt_trans h1 h2)
      simp [strLeChars, hne, hac]

theorem strLeB_total (a b : String) : strLeB a b = true ∨ strLeB b a = true :=
  strLeChars_total a.data b.data

theorem strLeB_trans {a b c : String} (h1 : strLeB a b = true)
    (h2 : strLeB b c = true) : strLeB a c = true :=
  strLeChars_trans a.data b.data c.data h1 h2

theorem perm_insertSorted (s : String) : ∀ l, (insertSorted s l).Perm (s :: l)
  | [] => List.Perm.refl _
  | t :: ts => by
    by_cases h : strLeB s t = true
    · simp [insertSorted, h]
    · rw [insertSorted, if_neg h]
      exact ((perm_insertSorted s ts).cons t).trans (List.Perm.swap s t ts)

theorem perm_sortStrings : ∀ l, (sortStrings l).Perm l
  | [] => List.Perm.refl _
  | s :: ss => (perm_insertSorted s (sortStrings ss)).trans ((perm_sortStrings ss).cons s)

theorem sorted_insertSorted (s : String) :
    ∀ l, List.Sorted (fun a b => strLeB a b = true) l →
      List.Sorted (fun a b => strLeB a b = true) (insertSorted s l)
  | [], _ => by simp [insertSorted]
  | t :: ts, h => by
    rw [List.sorted_cons] at h
    obtain ⟨ht, hts⟩ := h
    by_cases hc : strLeB s t = true
    · rw [insertSorted, if_pos hc, List.sorted_cons]
      refine ⟨?_, List.sorted_cons.mpr ⟨ht, hts⟩⟩
      intro u hu
      rcases List.mem_cons.mp hu with rfl | hu'
      · exact hc
      · exact strLeB_trans hc (ht u hu')
    · rw [insertSorted, if_neg hc, List.sorted_cons]
      refine ⟨?_, sorted_insertSorted s ts hts⟩
      intro u hu
      rcases List.mem_cons.mp ((perm_insertSorted s ts).mem_iff.mp hu) with rfl | hu'
      · rcases strLeB_total u t with h' | h'
        · exact absurd h' hc
        · exact h'
      · exact ht u hu'

theorem sorted_sortStrings :
    ∀ l, List.Sorted (fun a b => strLeB a b = true) (sortStrings l)
  | [] => by simp [sortStrings]
  | s :: ss => sorted_insertSorted s (sortStrings ss) (sorted_sortStrings ss)

/-- Claim C4: on a present string value matching no variant, `as_enum`
raises the structured error whose message is "Must be one of " followed by
the variants' string values sorted by their underlying string
representation and joined by "/"; the sort used in the message is indeed an
ascending (lexicographic code-point) reordering of the variant values. -/
theorem claim_c4 (w : Walker) (values : List String) (dflt : Option String)
    (s : String) (hs : wobj w = .str_ s) (hns : values.contains s = false) :
    as_enum w values dflt =
      .error ⟨w, "Must be one of " ++ String.intercalate "/" (sortStrings values)⟩ ∧
    List.Sorted (fun a b => strLeB a b = true) (sortStrings values) ∧
    (sortStrings values).Perm values := by
  refine ⟨?_, sorted_sortStrings values, perm_sortStrings values⟩
  have hm : is_missing w = false := by simp [is_missing, hs, isMissingVal]
  have hstr : as_str w none = .ok (.str_ s) := by
    have := as_type_of_match w isInstStr "Expected a string" none (by simp [hs, isInstStr])
    simpa [as_str, hs] using this
  have hmem : s ∉ values := by simpa using hns
  cases dflt <;> simp [as_enum, hm, hstr, enumLookup, hmem]

/-- Witness for C4: a non-matching string against the variants declared in
the order b, a produces the message with the values sorted as a/b. -/
theorem claim_c4_witness :
    as_enum (Walker.root (.str_ "c") "") ["b", "a"] none =
      .error ⟨Walker.root (.str_ "c") "", "Must be one of a/b"⟩ := by
  have h := claim_c4 (Walker.root (.str_ "c") "") ["b", "a"] none "c" rfl (by decide)
  have h2 : "Must be one of " ++ String.intercalate "/" (sortStrings ["b", "a"]) =
      "Must be one of a/b" := by decide
  rw [h.1, h2]

theorem anokLoop_ok (self : Walker) (refs : List String) :
    ∀ items : List (String × PyVal), (∀ kv ∈ items, refs.contains kv.1 = true) →
      anokLoop self refs items = .ok ()
  | [], _ => rfl
  | (k, v) :: rest, h => by
    have hk : refs.contains k = true := h (k, v) (List.mem_cons_self _ _)
    rw [anokLoop, if_pos hk]
    exact anokLoop_ok self refs rest fun kv hkv => h kv (List.mem_cons_of_mem _ hkv)

theorem anokLoop_firstErr (self : Walker) (refs : List String) (k : String) (v : PyVal)
    (rest : List (String × PyVal)) (hk : refs.contains k = false) :
    ∀ pre : List (String × PyVal), (∀ kv ∈ pre, refs.contains kv.1 = true) →
      anokLoop self refs (pre ++ (k, v) :: rest) =
        .error ⟨.inObject v self k "", "Unexpected key"⟩
  | [], _ => by
    rw [List.nil_append, anokLoop, if_neg (by simpa using hk)]
  | (k', v') :: pre', h => by
    have hk' : refs.contains k' = true := h (k', v') (List.mem_cons_self _ _)
    rw [List.cons_append, anokLoop, if_pos hk']
    exact anokLoop_firstErr self refs k v rest hk pre'
      fun kv hkv => h kv (List.mem_cons_of_mem _ hkv)

/-- Claim C3: the object-inspection cursor used as a scoped resource: on
exit with an error already propagating the release check is skipped; on
clean exit `assert_no_other_keys` runs, raising nothing when every key of
the object has been referenced, and raising the structured error
"Unexpected key" at the first attribute in the object's own iteration order
whose key is not in the referenced-keys set. -/
theorem claim_c3 (items : List (String × PyVal)) (parent : Walker)
    (refs : List String) (c : String) :
    exitScope (Walker.objectW (.dict_ items) parent refs c) true = .ok () ∧
    ((∀ kv ∈ items, refs.contains kv.1 = true) →
      exitScope (Walker.objectW (.dict_ items) parent refs c) false = .ok ()) ∧
    (∀ (pre : List (String × PyVal)) (k : String) (v : PyVal)
        (rest : List (String × PyVal)),
      items = pre ++ (k, v) :: rest →
      (∀ kv ∈ pre, refs.contains kv.1 = true) →
      refs.contains k = false →
      exitScope (Walker.objectW (.dict_ items) parent refs c) false =
        .error ⟨.inObject v (Walker.objectW (.dict_ items) parent refs c) k "",
                "Unexpected key"⟩) := by
  refine ⟨rfl, ?_, ?_⟩
  · intro h
    have : anokLoop (Walker.objectW (.dict_ items) parent refs c) refs items = .ok () :=
      anokLoop_ok _ refs items h
    simpa [exitScope, assert_no_other_keys, wobj, wrefs] using this
  · intro pre k v rest hsplit hpre hk
    have : anokLoop (Walker.objectW (.dict_ items) parent refs c) refs
        (pre ++ (k, v) :: rest) =
        .error ⟨.inObject v (Walker.objectW (.dict_ items) parent refs c) k "",
                "Unexpected key"⟩ :=
      anokLoop_firstErr _ refs k v rest hk pre hpre
    rw [← hsplit] at this
    simpa [exitScope, assert_no_other_keys, wobj, wrefs] using this

/-- Witness for C3: over the object with attributes a, b of which only a
was referenced, an abnormal exit raises nothing and a clean exit raises
"Unexpected key" at b; over the same object with both keys referenced a
clean exit raises nothing. -/
theorem claim_c3_witness :
    exitScope (Walker.objectW (.dict_ [("a", .int_ 1), ("b", .bool_ true)])
      (.root .none_ "") ["a"] "") true = .ok () ∧
    exitScope (Walker.objectW (.dict_ [("a", .int_ 1), ("b", .bool_ true)])
      (.root .none_ "") ["a"] "") false =
      .error ⟨.inObject (.bool_ true)
        (Walker.objectW (.dict_ [("a", .int_ 1), ("b", .bool_ true)])
          (.root .none_ "") ["a"] "") "b" "", "Unexpected key"⟩ ∧
    exitScope (Walker.objectW (.dict_ [("a", .int_ 1), ("b", .bool_ true)])
      (.root .none_ "") ["b", "a"] "") false = .ok () := by
  refine ⟨?_, ?_, ?_⟩
  · exact (claim_c3 [("a", .int_ 1), ("b", .bool_ true)] (.root .none_ "") ["a"] "").1
  · exact (claim_c3 [("a", .int_ 1), ("b", .bool_ true)] (.root .none_ "") ["a"] "").2.2
      [("a", .int_ 1)] "b" (.bool_ true) [] rfl (by decide) (by decide)
  · exact (claim_c3 [("a", .int_ 1), ("b", .bool_ true)] (.root .none_ "") ["b", "a"] "").2.1
      (by decide)

/-- Claim C5: keyed lookup on an object-inspection cursor: a present key is
recorded in the referenced-keys set and yields an object-attribute cursor
wrapping the attribute's value with the (updated) inspection cursor as
parent and that key; an absent key yields an object-attribute cursor
wrapping a fresh missing-value marker with the inspection cursor as parent
and that key, so extraction on it follows the missing/default rules and an
error's path names the looked-up key. -/
theorem claim_c5 (items : List (String × PyVal)) (parent : Walker)
    (refs : List String) (c : String) (key : String) :
    (∀ v, items.lookup key = some v →
      getitem (Walker.objectW (.dict_ items) parent refs c) key =
        (addRef (Walker.objectW (.dict_ items) parent refs c) key,
         .inObject v (addRef (Walker.objectW (.dict_ items) parent refs c) key) key "") ∧
      (wrefs (addRef (Walker.objectW (.dict_ items) parent refs c) key)).contains key
        = true) ∧
    (items.lookup key = none →
      getitem (Walker.objectW (.dict_ items) parent refs c) key =
        (Walker.objectW (.dict_ items) parent refs c,
         .inObject .missing (Walker.objectW (.dict_ items) parent refs c) key "") ∧
      is_missing (.inObject .missing (Walker.objectW (.dict_ items) parent refs c) key "")
        = true ∧
      (isWordKey key = true →
        context (.inObject .missing (Walker.objectW (.dict_ items) parent refs c) key "")
          = "." ++ key)) := by
  constructor
  · intro v hv
    constructor
    · simp [getitem, dictLookup, wobj, hv]
    · simp only [addRef, wrefs]
      by_cases h : key ∈ refs
      · simp [h]
      · simp [h]
  · intro hv
    refine ⟨?_, rfl, ?_⟩
    · simp [getitem, dictLookup, wobj, hv]
    · intro hw
      simp [context, hw]

/-- Witness for C5: looking up the present key a records it and wraps its
value; looking up the absent key z wraps a missing marker. -/
theorem claim_c5_witness :
    getitem (Walker.objectW (.dict_ [("a", .int_ 1)]) (.root .none_ "") [] "") "a" =
      (Walker.objectW (.dict_ [("a", .int_ 1)]) (.root .none_ "") ["a"] "",
       .inObject (.int_ 1)
         (Walker.objectW (.dict_ [("a", .int_ 1)]) (.root .none_ "") ["a"] "") "a" "") ∧
    getitem (Walker.objectW (.dict_ [("a", .int_ 1)]) (.root .none_ "") [] "") "z" =
      (Walker.objectW (.dict_ [("a", .int_ 1)]) (.root .none_ "") [] "",
       .inObject .missing
         (Walker.objectW (.dict_ [("a", .int_ 1)]) (.root .none_ "") [] "") "z" "") := by
  constructor
  · exact ((claim_c5 [("a", .int_ 1)] (.root .none_ "") [] "" "a").1 (.int_ 1) rfl).1
  · exact ((claim_c5 [("a", .int_ 1)] (.root .none_ "") [] "" "z").2 rfl).1

/-- Claim C2 is refuted by the code: `WalkerError.__str__` reverses the
flat list of alternating fragments and annotations, so a cursor's
annotation is rendered immediately *before* its own structural fragment,
not after it as the claim (and the `set_custom_context` docstring) states:
a root cursor annotated "A" renders as "Aroot: oops", not "rootA: oops". -/
theorem claim_c2_render :
    strError ⟨Walker.root (.int_ 1) "A", "oops"⟩ = "Aroot: oops" ∧
    strError ⟨Walker.root (.int_ 1) "A", "oops"⟩ ≠ "rootA: oops" := by
  constructor
  · rfl
  · decide

/-- Claim C6 is refuted by the code: the default parameter is declared
`default: Optional[T] = None` and tested with `default is None`, so
explicitly supplying the `None` sentinel as the default is
indistinguishable from supplying no default: on a missing cursor it raises
"Mandatory key is missing" instead of returning the sentinel.  In the
embedding both calls are the same term `as_str w none`, evaluated here. -/
theorem claim_c6_conflation :
    as_str (Walker.root .missing "") none =
      .error ⟨Walker.root .missing "", "Mandatory key is missing"⟩ := rfl

end TreeWalker
